import Mathlib

/-!
Verification of the usgs client core (api-checkpoint.py): credential store
resolution, session construction, response classification, and the login and
logout operations.  The remote HTTP exchange is modelled at its boundary: each
operation takes the parsed JSON response envelope as an argument, and the
on-disk credential file (~/.usgs) is modelled as an explicit store state
threaded through the functions.
-/

/-- State of the persisted credential file (TMPFILE = ~/.usgs):
absent (file does not exist), stored apiKey created (file holds a JSON record
with an apiKey field and a created timestamp), or corrupt (file exists but
json.load or the apiKey lookup fails). -/
inductive StoreState where
  | absent : StoreState
  | stored (apiKey : String) (created : String) : StoreState
  | corrupt : StoreState
deriving DecidableEq

/-- Python exceptions the embedded functions can raise.  keyError models a
dict lookup failure, usgsError models USGSError msg, usgsAuthExpiredError
models USGSAuthExpiredError msg, jsonDecodeError models a failure decoding
the credential file. -/
inductive PyErr where
  | keyError (key : String) : PyErr
  | usgsError (msg : String) : PyErr
  | usgsAuthExpiredError (msg : String) : PyErr
  | jsonDecodeError : PyErr
deriving DecidableEq

/-- A parsed JSON response envelope, keeping track of which keys are present.
The outer Option is key presence in the dict; the inner Option is JSON null
versus a string value. -/
structure Envelope where
  data : Option (Option String)
  errorCode : Option (Option String)
  errorMessage : Option (Option String)
deriving DecidableEq

/-- Python string interpolation of a string-or-None value: None renders as
the four characters None. -/
def pyStr : Option String → String
  | none => "None"
  | some s => s

/-- Embeds _get_api_key: if api_key is None and the credential file exists,
load it and take its apiKey field; otherwise return api_key unchanged.
A corrupt file raises; a missing file does not. -/
def _get_api_key (api_key : Option String) (store : StoreState) :
    Except PyErr (Option String) :=
  match api_key, store with
  | none, StoreState.absent => Except.ok none
  | none, StoreState.stored k _ => Except.ok (some k)
  | none, StoreState.corrupt => Except.error PyErr.jsonDecodeError
  | some k, _ => Except.ok (some k)

/-- Embeds _check_for_usgs_error: read errorCode; if null, succeed; otherwise
read errorMessage, then raise USGSAuthExpiredError for AUTH_EXPIRED and
USGSError with the code and message otherwise.  Missing dict keys raise
KeyError exactly where the source subscripts the dict. -/
def _check_for_usgs_error (data : Envelope) : Except PyErr Unit :=
  match data.errorCode with
  | none => Except.error (PyErr.keyError "errorCode")
  | some none => Except.ok ()
  | some (some error_code) =>
    match data.errorMessage with
    | none => Except.error (PyErr.keyError "errorMessage")
    | some errMsg =>
      if error_code = "AUTH_EXPIRED" then
        Except.error (PyErr.usgsAuthExpiredError
          "API key has expired. Try logging out and logging back in.")
      else
        Except.error (PyErr.usgsError (error_code ++ ": " ++ pyStr errMsg))

/-- The client version string interpolated into the user agent.  The value
comes from the usgs package __version__, which is outside src/; the claims
depend only on the auth header, never on this string. -/
def usgs_client_version : String := "0.3.5"

/-- The User-Agent header value set by _create_session. -/
def userAgent : String := "Python usgs v" ++ usgs_client_version

/-- The transport retry policy installed by _create_session:
Retry(total=5, backoff_factor=2).  In urllib3, total counts retries after
the initial attempt, not total attempts. -/
structure RetryPolicy where
  total : Nat
  backoff_factor : Nat
deriving DecidableEq

/-- The concrete policy from the source: Retry(total=5, backoff_factor=2). -/
def session_retry_policy : RetryPolicy :=
  { total := 5, backoff_factor := 2 }

/-- The observable configuration of a requests session built by
_create_session: its headers and the mounted retry policy. -/
structure Session where
  headers : List (String × String)
  retries : RetryPolicy
deriving DecidableEq

/-- Embeds _create_session: resolve the key via _get_api_key, set the
User-Agent header, add the X-Auth-Token header only when the resolved key is
truthy (Python: a non-None, non-empty string), and mount the retry policy. -/
def _create_session (api_key : Option String) (store : StoreState) :
    Except PyErr Session :=
  match _get_api_key api_key store with
  | Except.error e => Except.error e
  | Except.ok k =>
    let base := [("User-Agent", userAgent)]
    let headers :=
      match k with
      | some key => if key = "" then base else base ++ [("X-Auth-Token", key)]
      | none => base
    Except.ok { headers := headers, retries := session_retry_policy }

/-- The value of the X-Auth-Token header of a session-construction result,
when the construction succeeded and the header is present. -/
def sessionAuthHeader (r : Except PyErr Session) : Option String :=
  match r with
  | Except.ok s => s.headers.lookup "X-Auth-Token"
  | Except.error _ => none

/-- Models the urllib3 retry loop of the mounted HTTPAdapter for a transport
that either fails or succeeds at each attempt.  transport n is the outcome of
attempt number n (numbered from 0); i is the current attempt number and r the
remaining retries.  Returns whether the exchange eventually succeeded and how
many attempts were made; a False result is MaxRetryError surfacing to the
caller as a transport error. -/
def runWithRetries (transport : Nat → Bool) : Nat → Nat → Bool × Nat
  | i, r =>
    if transport i then (true, i + 1)
    else
      match r with
      | 0 => (false, i + 1)
      | Nat.succ r1 => runWithRetries transport (i + 1) r1

/-- Models urllib3 get_backoff_time: the delay before the n-th retry
(n numbered from 1) is backoff_factor * 2 ^ (n - 1). -/
def get_backoff_time (factor : Nat) (n : Nat) : Nat :=
  factor * 2 ^ (n - 1)

/-- Embeds dataset_filters with the network boundary abstracted: resolve the
key, build the session (which resolves again, as the source does), POST the
payload, then classify the parsed response and return it unchanged. -/
def dataset_filters (api_key : Option String) (store : StoreState)
    (response : Envelope) : Except PyErr Envelope :=
  match _get_api_key api_key store with
  | Except.error e => Except.error e
  | Except.ok k =>
    match _create_session k store with
    | Except.error e => Except.error e
    | Except.ok _ =>
      match _check_for_usgs_error response with
      | Except.error e => Except.error e
      | Except.ok _ => Except.ok response

/-- The message USGSError is given when login finds data of None:
response.get with the default Authentication failed. -/
def loginFailMsg (env : Envelope) : String :=
  match env.errorMessage with
  | none => "Authentication failed"
  | some m => pyStr m

/-- Result of a login call: the returned envelope or the raised exception,
and the credential store state after the call. -/
structure LoginOutcome where
  result : Except PyErr Envelope
  store : StoreState

/-- Embeds login with the network boundary abstracted: build a session with
no explicit key (which still resolves the stored key), POST the credentials
as payload, classify the response, extract the issued key from its data
field, raise if the key is None, and persist the record when save is true. -/
def login (store : StoreState) (created : String) (response : Envelope)
    (save : Bool) : LoginOutcome :=
  match _create_session none store with
  | Except.error e => { result := Except.error e, store := store }
  | Except.ok _ =>
    match _check_for_usgs_error response with
    | Except.error e => { result := Except.error e, store := store }
    | Except.ok _ =>
      match response.data with
      | none => { result := Except.error (PyErr.keyError "data"), store := store }
      | some none =>
        { result := Except.error (PyErr.usgsError (loginFailMsg response))
          store := store }
      | some (some api_key) =>
        if save then
          { result := Except.ok response
            store := StoreState.stored api_key created }
        else
          { result := Except.ok response, store := store }

/-- Result of a logout call: the return value (None when short-circuited,
otherwise the envelope) or the raised exception, the store state after the
call, and whether a network POST was made. -/
structure LogoutOutcome where
  result : Except PyErr (Option Envelope)
  store : StoreState
  networkCalled : Bool

/-- Embeds logout with the network boundary abstracted: return None at once
if the credential file is absent; otherwise build a session with no explicit
key, POST, classify the response suppressing only USGSAuthExpiredError,
remove the credential file, and return the envelope. -/
def logout (store : StoreState) (response : Envelope) : LogoutOutcome :=
  match store with
  | StoreState.absent =>
    { result := Except.ok none, store := StoreState.absent, networkCalled := false }
  | StoreState.corrupt =>
    { result := Except.error PyErr.jsonDecodeError
      store := StoreState.corrupt, networkCalled := false }
  | StoreState.stored k c =>
    match _check_for_usgs_error response with
    | Except.ok _ =>
      { result := Except.ok (some response)
        store := StoreState.absent, networkCalled := true }
    | Except.error (PyErr.usgsAuthExpiredError _) =>
      { result := Except.ok (some response)
        store := StoreState.absent, networkCalled := true }
    | Except.error e =>
      { result := Except.error e
        store := StoreState.stored k c, networkCalled := true }

/-- Models removal of the persisted credential record, as logout performs it
with os.remove and the Credential Store contract names clear. -/
def clear : StoreState → StoreState := fun _ => StoreState.absent

/-- A transport that fails at every attempt makes exactly i + r + 1 attempts
when started at attempt i with r retries remaining. -/
theorem runWithRetries_all_fail (t : Nat → Bool) (hfail : ∀ n, t n = false) :
    ∀ r i, runWithRetries t i r = (false, i + r + 1) := by
  intro r
  induction r with
  | zero =>
    intro i
    simp [runWithRetries, hfail i]
  | succ r1 ih =>
    intro i
    have h := ih (i + 1)
    simp [runWithRetries, hfail i, h]
    omega

/-- Claim C1 counterexample: with a key stored in the credential file, the
session that login builds (explicit key None) does carry an X-Auth-Token
header, holding the stored key: _create_session resolves the missing
explicit key from the store before setting headers. -/
theorem login_session_carries_stored_key :
    sessionAuthHeader
        (_create_session none (StoreState.stored "SECRET" "2024-01-01")) =
      some "SECRET" := by rfl

/-- Claim C1 amended: login builds its session with no explicit key, so the
session carries no X-Auth-Token header when no credential is stored; when the
store holds a nonempty key, the session carries that stored key as its
X-Auth-Token header. -/
theorem login_session_auth_header (k c : String) (hk : k ≠ "") :
    sessionAuthHeader (_create_session none StoreState.absent) = none ∧
    sessionAuthHeader (_create_session none (StoreState.stored k c)) =
      some k := by
  refine ⟨rfl, ?_⟩
  simp [sessionAuthHeader, _create_session, _get_api_key, hk, List.lookup,
    userAgent, usgs_client_version]

/-- Witness for the amended C1 at the stored key KEY. -/
theorem login_session_auth_header_witness :
    sessionAuthHeader (_create_session none StoreState.absent) = none ∧
    sessionAuthHeader (_create_session none (StoreState.stored "KEY" "t")) =
      some "KEY" :=
  login_session_auth_header "KEY" "t" (by decide)

/-- Claim C2 counterexample: a transport failing at every attempt is tried 6
times under the configured policy, not 5: Retry total 5 counts retries after
the initial attempt. -/
theorem retry_attempts_counterexample :
    runWithRetries (fun _ => false) 0 session_retry_policy.total =
      (false, 6) ∧
    (runWithRetries (fun _ => false) 0 session_retry_policy.total).2 ≠ 5 := by
  constructor <;> decide

/-- Claim C2 amended: the session retry policy is total 5 retries with
backoff factor 2 (retry delays 2 * 2 ^ (n - 1): 2, 4, 8, 16, 32), and a
transport failing every attempt raises a transport error after exactly
total + 1 = 6 attempts (the initial attempt plus 5 retries), not fewer or
more. -/
theorem retry_exhaustion (t : Nat → Bool) (hfail : ∀ n, t n = false) :
    session_retry_policy = { total := 5, backoff_factor := 2 } ∧
    (_create_session none StoreState.absent).map Session.retries =
      Except.ok session_retry_policy ∧
    runWithRetries t 0 session_retry_policy.total =
      (false, session_retry_policy.total + 1) ∧
    (List.range session_retry_policy.total).map
        (fun i => get_backoff_time session_retry_policy.backoff_factor (i + 1)) =
      [2, 4, 8, 16, 32] := by
  refine ⟨rfl, rfl, ?_, by decide⟩
  have h := runWithRetries_all_fail t hfail session_retry_policy.total 0
  simpa using h

/-- Witness for the amended C2 at the always failing transport. -/
theorem retry_exhaustion_witness :
    session_retry_policy = { total := 5, backoff_factor := 2 } ∧
    (_create_session none StoreState.absent).map Session.retries =
      Except.ok session_retry_policy ∧
    runWithRetries (fun _ => false) 0 session_retry_policy.total =
      (false, session_retry_policy.total + 1) ∧
    (List.range session_retry_policy.total).map
        (fun i => get_backoff_time session_retry_policy.backoff_factor (i + 1)) =
      [2, 4, 8, 16, 32] :=
  retry_exhaustion (fun _ => false) (fun _ => rfl)

/-- Claim C3: credential resolution precedence: an explicit key is returned
as given; with no explicit key the stored key is returned when present, else
none; and resolution never raises when the credential file is missing.  The
source has a single optional argument, so an explicitly passed None and an
omitted key are the same call, resolving from the store. -/
theorem get_api_key_precedence (e : Option String) (k key c : String)
    (s : StoreState) :
    _get_api_key (some k) s = Except.ok (some k) ∧
    _get_api_key none (StoreState.stored key c) = Except.ok (some key) ∧
    _get_api_key none StoreState.absent = Except.ok none ∧
    ∃ v, _get_api_key e StoreState.absent = Except.ok v := by
  refine ⟨?_, rfl, rfl, ?_⟩
  · cases s <;> rfl
  · cases e <;> exact ⟨_, rfl⟩

/-- Claim C4: with a credential stored, a logout answered AUTH_EXPIRED
suppresses only the auth-expired failure, still deletes the local credential
record, and returns the envelope as success: the store is absent after the
call. -/
theorem logout_auth_expired_clears_store (k c : String) (env : Envelope)
    (v : Option String)
    (hcode : env.errorCode = some (some "AUTH_EXPIRED"))
    (hmsg : env.errorMessage = some v) :
    logout (StoreState.stored k c) env =
      { result := Except.ok (some env)
        store := StoreState.absent
        networkCalled := true } := by
  simp [logout, _check_for_usgs_error, hcode, hmsg]

/-- Witness for C4 at a concrete stored key and AUTH_EXPIRED envelope. -/
theorem logout_auth_expired_witness :
    logout (StoreState.stored "K" "t")
        { data := none, errorCode := some (some "AUTH_EXPIRED"),
          errorMessage := some (some "expired") } =
      { result := Except.ok (some
          { data := none, errorCode := some (some "AUTH_EXPIRED"),
            errorMessage := some (some "expired") })
        store := StoreState.absent
        networkCalled := true } :=
  logout_auth_expired_clears_store "K" "t" _ (some "expired") rfl rfl

/-- Claim C5: for every envelope with null errorCode, classification succeeds
raising nothing and the operation (dataset_filters) returns the full envelope
unchanged, whenever credential resolution itself does not raise. -/
theorem classify_null_returns_envelope (api_key : Option String)
    (store : StoreState) (env : Envelope) (k : Option String)
    (hres : _get_api_key api_key store = Except.ok k)
    (hcode : env.errorCode = some none) :
    _check_for_usgs_error env = Except.ok () ∧
    dataset_filters api_key store env = Except.ok env := by
  have hchk : _check_for_usgs_error env = Except.ok () := by
    simp [_check_for_usgs_error, hcode]
  refine ⟨hchk, ?_⟩
  have hsess : ∃ s, _create_session k store = Except.ok s := by
    cases k with
    | some x => cases store <;> exact ⟨_, rfl⟩
    | none =>
      cases store with
      | absent => exact ⟨_, rfl⟩
      | stored a b => exact ⟨_, rfl⟩
      | corrupt => cases api_key <;> simp [_get_api_key] at hres
  obtain ⟨s, hs⟩ := hsess
  simp [dataset_filters, hres, hs, hchk]

/-- Witness for C5 at a concrete successful envelope. -/
theorem classify_null_witness :
    _check_for_usgs_error
        { data := some (some "D"), errorCode := some none,
          errorMessage := some none } = Except.ok () ∧
    dataset_filters none StoreState.absent
        { data := some (some "D"), errorCode := some none,
          errorMessage := some none } =
      Except.ok
        { data := some (some "D"), errorCode := some none,
          errorMessage := some none } :=
  classify_null_returns_envelope none StoreState.absent _ none rfl rfl

/-- Claim C6: an envelope with errorCode AUTH_EXPIRED classifies to the
distinct USGSAuthExpiredError, never the generic USGSError, whatever the
errorMessage field holds (null or any string), the field being present as the
envelope schema requires. -/
theorem classify_auth_expired_typed (env : Envelope) (v : Option String)
    (hcode : env.errorCode = some (some "AUTH_EXPIRED"))
    (hmsg : env.errorMessage = some v) :
    _check_for_usgs_error env =
      Except.error (PyErr.usgsAuthExpiredError
        "API key has expired. Try logging out and logging back in.") := by
  simp [_check_for_usgs_error, hcode, hmsg]

/-- Witness for C6 with a null errorMessage, showing the message content is
irrelevant. -/
theorem classify_auth_expired_witness :
    _check_for_usgs_error
        { data := none, errorCode := some (some "AUTH_EXPIRED"),
          errorMessage := some none } =
      Except.error (PyErr.usgsAuthExpiredError
        "API key has expired. Try logging out and logging back in.") :=
  classify_auth_expired_typed _ none rfl rfl

/-- Claim C7: an envelope with a non-null errorCode other than AUTH_EXPIRED
classifies to USGSError carrying exactly that code and the exact errorMessage
from the envelope, joined verbatim as code, colon, space, message. -/
theorem classify_generic_preserves (env : Envelope) (c m : String)
    (hcode : env.errorCode = some (some c))
    (hne : c ≠ "AUTH_EXPIRED")
    (hmsg : env.errorMessage = some (some m)) :
    _check_for_usgs_error env =
      Except.error (PyErr.usgsError (c ++ ": " ++ m)) := by
  simp [_check_for_usgs_error, hcode, hmsg, hne, pyStr]

/-- Witness for C7 at a concrete generic service error. -/
theorem classify_generic_witness :
    _check_for_usgs_error
        { data := none, errorCode := some (some "DATASET_UNAVAILABLE"),
          errorMessage := some (some "no such dataset") } =
      Except.error
        (PyErr.usgsError ("DATASET_UNAVAILABLE" ++ ": " ++ "no such dataset")) :=
  classify_generic_preserves _ "DATASET_UNAVAILABLE" "no such dataset"
    rfl (by decide) rfl

/-- Claim C8: round trip: a successful login with save true and response
data K returns the envelope, persists a record holding K with the current
timestamp, a subsequent resolution with no explicit key yields K, and after
the store is cleared the same resolution yields none. -/
theorem login_roundtrip (store : StoreState) (created K : String)
    (env : Envelope)
    (hstore : store ≠ StoreState.corrupt)
    (hcode : env.errorCode = some none)
    (hdata : env.data = some (some K)) :
    (login store created env true).result = Except.ok env ∧
    (login store created env true).store = StoreState.stored K created ∧
    _get_api_key none (login store created env true).store =
      Except.ok (some K) ∧
    _get_api_key none (clear (login store created env true).store) =
      Except.ok none := by
  have hsess : ∃ s, _create_session none store = Except.ok s := by
    cases store with
    | absent => exact ⟨_, rfl⟩
    | stored a b => exact ⟨_, rfl⟩
    | corrupt => exact absurd rfl hstore
  obtain ⟨s, hs⟩ := hsess
  simp [login, hs, _check_for_usgs_error, hcode, hdata, clear, _get_api_key]

/-- Witness for C8 from an empty store with issued key NEWKEY. -/
theorem login_roundtrip_witness :
    (login StoreState.absent "2024-01-01"
        { data := some (some "NEWKEY"), errorCode := some none,
          errorMessage := some none } true).result =
      Except.ok
        { data := some (some "NEWKEY"), errorCode := some none,
          errorMessage := some none } ∧
    (login StoreState.absent "2024-01-01"
        { data := some (some "NEWKEY"), errorCode := some none,
          errorMessage := some none } true).store =
      StoreState.stored "NEWKEY" "2024-01-01" ∧
    _get_api_key none
        (login StoreState.absent "2024-01-01"
          { data := some (some "NEWKEY"), errorCode := some none,
            errorMessage := some none } true).store =
      Except.ok (some "NEWKEY") ∧
    _get_api_key none
        (clear (login StoreState.absent "2024-01-01"
          { data := some (some "NEWKEY"), errorCode := some none,
            errorMessage := some none } true).store) =
      Except.ok none :=
  login_roundtrip StoreState.absent "2024-01-01" "NEWKEY" _
    (by decide) rfl rfl

/-- Claim C9: logout with no stored credential returns None immediately as a
no-op success: no network call is made, nothing is raised, and the store
stays absent, whatever the service would have answered. -/
theorem logout_no_credential (env : Envelope) :
    logout StoreState.absent env =
      { result := Except.ok none
        store := StoreState.absent
        networkCalled := false } := rfl

/-- Claim C10: the classifier reads the errorMessage field before dispatching
on the code: any envelope with a non-null errorCode but no errorMessage key
fails with the untyped KeyError rather than a typed failure, even when the
code is AUTH_EXPIRED; and no KeyError arises when errorCode is present and
errorMessage is present whenever errorCode is non-null. -/
theorem classify_reads_message_first (env env2 : Envelope) (c : String)
    (ec : Option String)
    (hcode : env.errorCode = some (some c))
    (hmsg : env.errorMessage = none)
    (hcode2 : env2.errorCode = some ec)
    (hmsg2 : ec ≠ none → env2.errorMessage ≠ none) :
    _check_for_usgs_error env = Except.error (PyErr.keyError "errorMessage") ∧
    ∀ key, _check_for_usgs_error env2 ≠ Except.error (PyErr.keyError key) := by
  constructor
  · simp [_check_for_usgs_error, hcode, hmsg]
  · intro key
    cases ec with
    | none => simp [_check_for_usgs_error, hcode2]
    | some c2 =>
      have h := hmsg2 (by simp)
      obtain ⟨v, hv⟩ := Option.ne_none_iff_exists'.mp h
      by_cases hc : c2 = "AUTH_EXPIRED" <;>
        simp [_check_for_usgs_error, hcode2, hv, hc]

/-- Witness for C10: an AUTH_EXPIRED envelope missing the errorMessage key
yields KeyError, while a successful envelope yields no KeyError. -/
theorem classify_reads_message_first_witness :
    _check_for_usgs_error
        { data := none, errorCode := some (some "AUTH_EXPIRED"),
          errorMessage := none } =
      Except.error (PyErr.keyError "errorMessage") ∧
    ∀ key, _check_for_usgs_error
        { data := none, errorCode := some none, errorMessage := none } ≠
      Except.error (PyErr.keyError key) :=
  classify_reads_message_first _ _ "AUTH_EXPIRED" none rfl rfl rfl
    (fun h => absurd rfl h)
